import Mathlib

/-!
Shallow embedding of the exergy-balance core of the IOR_Developed repository.

The repository contains three near-duplicate Streamlit applications,
src/ior_app.py, src/IOR_V2.py and src/ior_app_v2.py, each computing the same
per-row exergy balance with small formula differences.  Real-number
quantities are modelled as rationals; every constant in the source is a
finite decimal, so the arithmetic is exact.  Each variant's per-row
computation is embedded as a pure function of (technology, configuration,
measurement, resolved polymer concentration).
-/

namespace IOR

/-- Technology selection.  The constructor names follow the specification.
ior_app.py labels the first option "Water Injection" and has a single
"Other Technology (coming soon)" catch-all; IOR_V2.py offers all five;
ior_app_v2.py offers the first three.  Every unimplemented option lands in
each variant's final else-branch, so one shared enumeration suffices. -/
inductive Technology where
  | Waterflooding
  | PolymerInjection
  | CO2Injection
  | SteamInjection
  | ASP
deriving DecidableEq, Repr

/-- Sidebar parameters (one bundle per run).  IOR_V2.py has no control-valve
efficiency widget; the field eff_valv is only read by the ior_app.py
embedding.  n_valves is the valve count (slider 1..15). -/
structure Config where
  rho_O : ℚ
  rho_W : ℚ
  eff_pump : ℚ
  eff_poly : ℚ
  eff_pui : ℚ
  eff_valv : ℚ
  H : ℚ
  ALS : ℚ
  d_shipping : ℚ
  n_valves : ℕ
  CO2_factor : ℚ
  energy_cost : ℚ
deriving DecidableEq, Repr

/-- One row of the uploaded time series.  C is the polymer-concentration
column; a spreadsheet without that column gives C = none.  The date column
is never used in any computation and is omitted. -/
structure Measurement where
  Qinj_B : ℚ
  qoil_B : ℚ
  WHP_psi : ℚ
  WOR : ℚ
  C : Option ℚ
deriving DecidableEq, Repr

/-- Water-treatment specific energy, 5 kWh per cubic metre. -/
def X_trat : ℚ := 5

/-- Oil chemical specific exergy, 45.63e6 J per kg. -/
def X_Oil_Chem : ℚ := 45630000

/-- Polymer manufacturing specific exergy, 123.6e6 J per kg. -/
def X_man : ℚ := 123600000

/-- Polymer shipping specific exergy, 188 J per kg-km. -/
def X_shipping : ℚ := 188

/-- Gravitational acceleration, 9.81 m per square second. -/
def g : ℚ := 981 / 100

/-- Barrel to cubic-metre conversion factor, 0.158987. -/
def bbl_to_m3 : ℚ := 158987 / 1000000

/-- psi to Pa conversion factor, 6894.76. -/
def psi_to_Pa : ℚ := 689476 / 100

/-- Converted injection rate: Qinj_m3 column. -/
def Qinj_m3 (m : Measurement) : ℚ := m.Qinj_B * bbl_to_m3

/-- Converted oil rate: qoil_m3 column. -/
def qoil_m3 (m : Measurement) : ℚ := m.qoil_B * bbl_to_m3

/-- Converted wellhead pressure: the dataframe pressure column in Pa. -/
def dP_Pa (m : Measurement) : ℚ := m.WHP_psi * psi_to_Pa

/-- Mixture density, WOR * rho_W + (1 - WOR) * rho_O; identical text in all
three variants. -/
def rho_mix (cfg : Config) (m : Measurement) : ℚ :=
  m.WOR * cfg.rho_W + (1 - m.WOR) * cfg.rho_O

/-- Total liquid volume, qoil_m3 * (1 + WOR); identical in all variants. -/
def V_liq (m : Measurement) : ℚ := qoil_m3 m * (1 + m.WOR)

/-- Artificial-lift exergy, V_liq * rho_mix * g * H / ALS; identical in all
three variants and computed outside the technology branching. -/
def X_ALS (cfg : Config) (m : Measurement) : ℚ :=
  V_liq m * rho_mix cfg m * g * cfg.H / cfg.ALS

/-- Oil chemical exergy, X_Oil_Chem times the oil mass qoil_m3 * rho_O;
identical (up to factor order) in all three variants. -/
def X_Oil_Total (cfg : Config) (m : Measurement) : ℚ :=
  X_Oil_Chem * (qoil_m3 m * cfg.rho_O)

/-- The guarded recovery-factor expression shared by all variants:
(oil - total) / oil when oil is nonzero, else exactly 0. -/
def recoveryFactor (oil total : ℚ) : ℚ :=
  if oil ≠ 0 then (oil - total) / oil else 0

/-- The per-valve accumulation loop: starting from 0, add the per-valve
term once per valve (the sources loop over range(n_valves)). -/
def valveLoop (n : ℕ) (t : ℚ) : ℚ :=
  (List.range n).foldl (fun acc _ => acc + t) 0

/-- Balance columns stored for one row. -/
structure BalanceResult where
  X_mix : ℚ
  X_W_Prod : ℚ
  X_Iny : ℚ
  X_RFV : ℚ
  X_ALS : ℚ
  X_Oil_Total : ℚ
  X_RF : ℚ
deriving DecidableEq, Repr

namespace App1

/-!  Embedding of the src/ior_app.py row loop (lines 113-164).  -/

/-- ior_app.py polymer mixing exergy (line 130); 0 in the Water Injection
branch (line 118) and in the placeholder branch (line 140).  c is the
concentration value resolved from the row. -/
def X_mix (tech : Technology) (cfg : Config) (m : Measurement) (c : ℚ) : ℚ :=
  match tech with
  | .PolymerInjection => Qinj_m3 m * c * (X_man + X_shipping * cfg.d_shipping) / cfg.eff_pui
  | _ => 0

/-- ior_app.py water treatment exergy (lines 119 and 131); 0 in the
placeholder branch (line 141). -/
def X_W_Prod (tech : Technology) (m : Measurement) : ℚ :=
  match tech with
  | .Waterflooding => Qinj_m3 m * X_trat * 3600 * 1000
  | .PolymerInjection => Qinj_m3 m * X_trat * 3600 * 1000
  | _ => 0

/-- ior_app.py injection pump exergy (lines 120 and 132); 0 in the
placeholder branch (line 142). -/
def X_Iny (tech : Technology) (cfg : Config) (m : Measurement) : ℚ :=
  match tech with
  | .Waterflooding => Qinj_m3 m * dP_Pa m / cfg.eff_pump
  | .PolymerInjection => Qinj_m3 m * dP_Pa m / (cfg.eff_pump * cfg.eff_poly)
  | _ => 0

/-- ior_app.py valve friction exergy (lines 121-124 and 133-136); the
per-valve divisor is eff_valv for Water Injection and eff_poly for Polymer
Injection, and the accumulated sum is divided once by eff_pump; 0 in the
placeholder branch (line 143). -/
def X_RFV (tech : Technology) (cfg : Config) (m : Measurement) : ℚ :=
  match tech with
  | .Waterflooding => valveLoop cfg.n_valves (Qinj_m3 m * dP_Pa m / cfg.eff_valv) / cfg.eff_pump
  | .PolymerInjection => valveLoop cfg.n_valves (Qinj_m3 m * dP_Pa m / cfg.eff_poly) / cfg.eff_pump
  | _ => 0

/-- One full ior_app.py row computation with the concentration already
resolved to a rational. -/
def balance (tech : Technology) (cfg : Config) (m : Measurement) (c : ℚ) : BalanceResult :=
  { X_mix := X_mix tech cfg m c
    X_W_Prod := X_W_Prod tech m
    X_Iny := X_Iny tech cfg m
    X_RFV := X_RFV tech cfg m
    X_ALS := IOR.X_ALS cfg m
    X_Oil_Total := IOR.X_Oil_Total cfg m
    X_RF := recoveryFactor (IOR.X_Oil_Total cfg m)
      (X_mix tech cfg m c + X_W_Prod tech m + X_Iny tech cfg m + X_RFV tech cfg m
        + IOR.X_ALS cfg m) }

/-- ior_app.py per-row entry point: the concentration is read as
row.get("C", 0) (line 129), so a missing value is silently replaced by 0
and the computation always succeeds. -/
def balanceRow (tech : Technology) (cfg : Config) (m : Measurement) : BalanceResult :=
  balance tech cfg m (m.C.getD 0)

end App1

namespace V2

/-!  Embedding of the src/IOR_V2.py row loop (lines 75-115).  -/

/-- The inline conditional eff_poly-if-Polymer-else-1 used by both the
pump and the valve terms of IOR_V2.py (lines 91 and 95). -/
def polyFactor (tech : Technology) (cfg : Config) : ℚ :=
  if tech = .PolymerInjection then cfg.eff_poly else 1

/-- IOR_V2.py polymer mixing exergy (line 84); 0 for Waterflooding (line
86) and for the coming-soon cases (line 88). -/
def X_mix (tech : Technology) (cfg : Config) (m : Measurement) (c : ℚ) : ℚ :=
  if tech = .PolymerInjection then
    Qinj_m3 m * c * (X_man + X_shipping * cfg.d_shipping) / cfg.eff_pui
  else 0

/-- IOR_V2.py water treatment exergy (line 90): computed unconditionally,
for every technology. -/
def X_W_Prod (m : Measurement) : ℚ := Qinj_m3 m * X_trat * 3600000

/-- IOR_V2.py injection pump exergy (line 91): computed unconditionally,
with divisor eff_pump * (eff_poly if Polymer else 1). -/
def X_Iny (tech : Technology) (cfg : Config) (m : Measurement) : ℚ :=
  Qinj_m3 m * dP_Pa m / (cfg.eff_pump * polyFactor tech cfg)

/-- IOR_V2.py valve friction exergy (lines 93-96): computed
unconditionally; the per-valve divisor is eff_poly for Polymer and 1
otherwise (there is no valve-efficiency parameter in this variant), and
the sum is divided once by eff_pump. -/
def X_RFV (tech : Technology) (cfg : Config) (m : Measurement) : ℚ :=
  valveLoop cfg.n_valves (Qinj_m3 m * dP_Pa m / polyFactor tech cfg) / cfg.eff_pump

/-- One full IOR_V2.py row computation with the concentration already
resolved to a rational. -/
def balance (tech : Technology) (cfg : Config) (m : Measurement) (c : ℚ) : BalanceResult :=
  { X_mix := X_mix tech cfg m c
    X_W_Prod := X_W_Prod m
    X_Iny := X_Iny tech cfg m
    X_RFV := X_RFV tech cfg m
    X_ALS := IOR.X_ALS cfg m
    X_Oil_Total := IOR.X_Oil_Total cfg m
    X_RF := recoveryFactor (IOR.X_Oil_Total cfg m)
      (X_mix tech cfg m c + X_W_Prod m + X_Iny tech cfg m + X_RFV tech cfg m
        + IOR.X_ALS cfg m) }

/-- IOR_V2.py per-row entry point: C = row["C"] (line 80) is executed for
every technology before any arithmetic, so a row without the C column
raises a KeyError; that failure is modelled as none. -/
def balanceRow (tech : Technology) (cfg : Config) (m : Measurement) : Option BalanceResult :=
  m.C.map (fun c => balance tech cfg m c)

end V2

namespace App2

/-!  Embedding of the src/ior_app_v2.py row loop (lines 77-104), together
with the config-level conditional of its line 53.  -/

/-- ior_app_v2.py line 53: the eff_poly slider value is used only when the
technology is Polymer Injection, and is the constant 1.0 otherwise. -/
def effPoly (tech : Technology) (cfg : Config) : ℚ :=
  if tech = .PolymerInjection then cfg.eff_poly else 1

/-- ior_app_v2.py polymer mixing exergy (line 82); 0 otherwise (line 84). -/
def X_mix (tech : Technology) (cfg : Config) (m : Measurement) (c : ℚ) : ℚ :=
  if tech = .PolymerInjection then
    Qinj_m3 m * c * (X_man + X_shipping * cfg.d_shipping) / cfg.eff_pui
  else 0

/-- ior_app_v2.py water treatment exergy (line 86): unconditional. -/
def X_W_Prod (m : Measurement) : ℚ := Qinj_m3 m * X_trat * 3600 * 1000

/-- ior_app_v2.py injection pump exergy (line 87): unconditional, divisor
eff_pump * effPoly. -/
def X_Iny (tech : Technology) (cfg : Config) (m : Measurement) : ℚ :=
  Qinj_m3 m * dP_Pa m / (cfg.eff_pump * effPoly tech cfg)

/-- ior_app_v2.py valve friction exergy (line 89): the sum of n_valves
copies of Qinj_m3 * dP / effPoly, divided once by eff_pump. -/
def X_RFV (tech : Technology) (cfg : Config) (m : Measurement) : ℚ :=
  valveLoop cfg.n_valves (Qinj_m3 m * dP_Pa m / effPoly tech cfg) / cfg.eff_pump

/-- One full ior_app_v2.py row computation with the concentration already
resolved to a rational. -/
def balance (tech : Technology) (cfg : Config) (m : Measurement) (c : ℚ) : BalanceResult :=
  { X_mix := X_mix tech cfg m c
    X_W_Prod := X_W_Prod m
    X_Iny := X_Iny tech cfg m
    X_RFV := X_RFV tech cfg m
    X_ALS := IOR.X_ALS cfg m
    X_Oil_Total := IOR.X_Oil_Total cfg m
    X_RF := recoveryFactor (IOR.X_Oil_Total cfg m)
      (X_mix tech cfg m c + X_W_Prod m + X_Iny tech cfg m + X_RFV tech cfg m
        + IOR.X_ALS cfg m) }

/-- ior_app_v2.py per-row entry point: row["C"] is read only inside the
Polymer branch (line 82); a missing value there raises a KeyError,
modelled as none.  For other technologies C is never read. -/
def balanceRow (tech : Technology) (cfg : Config) (m : Measurement) : Option BalanceResult :=
  if tech = .PolymerInjection then m.C.map (fun c => balance tech cfg m c)
  else some (balance tech cfg m 0)

end App2

/-- Derived per-row reporting columns (identical final blocks of all three
variants). -/
structure SeriesSummary where
  inputExergyJ : ℚ
  inputExergyKWh : ℚ
  co2EmissionsTons : ℚ
  energyCostKUSD : ℚ
  usefulOilExergyGJ : ℚ
deriving DecidableEq, Repr

/-- J to kWh factor 2.77778e-7 used by every variant. -/
def J_to_kWh : ℚ := 277778 / 1000000000000

/-- The summary block (ior_app.py lines 167-171, IOR_V2.py lines 118-122,
ior_app_v2.py lines 107-111): total input exergy in J and kWh, CO2
emissions in tons, energy cost in thousand USD, useful oil exergy in GJ. -/
def summarize (cfg : Config) (b : BalanceResult) : SeriesSummary :=
  { inputExergyJ := b.X_mix + b.X_W_Prod + b.X_Iny + b.X_RFV + b.X_ALS
    inputExergyKWh := (b.X_mix + b.X_W_Prod + b.X_Iny + b.X_RFV + b.X_ALS) * J_to_kWh
    co2EmissionsTons :=
      (b.X_mix + b.X_W_Prod + b.X_Iny + b.X_RFV + b.X_ALS) * J_to_kWh * cfg.CO2_factor / 1000
    energyCostKUSD :=
      (b.X_mix + b.X_W_Prod + b.X_Iny + b.X_RFV + b.X_ALS) * J_to_kWh * cfg.energy_cost / 1000
    usefulOilExergyGJ := b.X_Oil_Total * b.X_RF / 1000000000 }

/-- Closed form of the per-valve accumulation loop: n identical additions
starting from 0 give n times the per-valve term. -/
theorem valveLoop_eq (n : ℕ) (t : ℚ) : valveLoop n t = n * t := by
  induction n with
  | zero => simp [valveLoop]
  | succ k ih =>
      have h : valveLoop (k + 1) t = valveLoop k t + t := by
        simp [valveLoop, List.range_succ]
      rw [h, ih]
      push_cast
      ring

/-- C9: the unit conversions use the fixed factors barrel to cubic metre
0.158987 and psi to Pa 6894.76, so converting 1000 bbl per day yields
exactly 158.987 cubic metres per day and 1000 psi yields exactly
6894760 Pa. -/
theorem C9_unit_conversions :
    bbl_to_m3 = 158987 / 1000000 ∧ psi_to_Pa = 689476 / 100 ∧
    Qinj_m3 ⟨1000, 500, 1500, 1/2, none⟩ = 158987 / 1000 ∧
    qoil_m3 ⟨500, 1000, 1500, 1/2, none⟩ = 158987 / 1000 ∧
    dP_Pa ⟨1000, 500, 1000, 1/2, none⟩ = 6894760 := by
  refine ⟨rfl, rfl, ?_, ?_, ?_⟩ <;>
    norm_num [Qinj_m3, qoil_m3, dP_Pa, bbl_to_m3, psi_to_Pa]

/-- C5: in every variant and for every technology, the artificial-lift
exergy equals V_liq * rho_mix * g * H / eff_ALS with
rho_mix = WOR * rho_W + (1 - WOR) * rho_O and V_liq = qoil_m3 * (1 + WOR),
and the term does not depend on the selected technology. -/
theorem C5_artificial_lift (tech tech' : Technology) (cfg : Config)
    (m : Measurement) (c c' : ℚ) :
    ((App1.balance tech cfg m c).X_ALS =
      qoil_m3 m * (1 + m.WOR) * (m.WOR * cfg.rho_W + (1 - m.WOR) * cfg.rho_O)
        * g * cfg.H / cfg.ALS) ∧
    ((V2.balance tech cfg m c).X_ALS =
      qoil_m3 m * (1 + m.WOR) * (m.WOR * cfg.rho_W + (1 - m.WOR) * cfg.rho_O)
        * g * cfg.H / cfg.ALS) ∧
    ((App2.balance tech cfg m c).X_ALS =
      qoil_m3 m * (1 + m.WOR) * (m.WOR * cfg.rho_W + (1 - m.WOR) * cfg.rho_O)
        * g * cfg.H / cfg.ALS) ∧
    (App1.balance tech cfg m c).X_ALS = (App1.balance tech' cfg m c').X_ALS ∧
    (V2.balance tech cfg m c).X_ALS = (V2.balance tech' cfg m c').X_ALS ∧
    (App2.balance tech cfg m c).X_ALS = (App2.balance tech' cfg m c').X_ALS :=
  ⟨rfl, rfl, rfl, rfl, rfl, rfl⟩

/-- C6: for every balance result, the per-row summary satisfies
inputExergyJ = sum of the five input terms,
inputExergyKWh = inputExergyJ * 2.77778e-7,
co2EmissionsTons = inputExergyKWh * CO2_factor / 1000,
energyCostKUSD = inputExergyKWh * energy_cost / 1000, and
usefulOilExergyGJ = X_Oil_Total * X_RF / 1e9. -/
theorem C6_summary_formulas (cfg : Config) (b : BalanceResult) :
    (summarize cfg b).inputExergyJ = b.X_mix + b.X_W_Prod + b.X_Iny + b.X_RFV + b.X_ALS ∧
    (summarize cfg b).inputExergyKWh = (summarize cfg b).inputExergyJ * (277778 / 1000000000000) ∧
    (summarize cfg b).co2EmissionsTons = (summarize cfg b).inputExergyKWh * cfg.CO2_factor / 1000 ∧
    (summarize cfg b).energyCostKUSD = (summarize cfg b).inputExergyKWh * cfg.energy_cost / 1000 ∧
    (summarize cfg b).usefulOilExergyGJ = b.X_Oil_Total * b.X_RF / 1000000000 :=
  ⟨rfl, rfl, rfl, rfl, rfl⟩

/-- C1 counterexample: with control-valve efficiency 1/2, pump efficiency
1, one valve, injection rate 1000000 bbl, pressure 100 psi, the IOR_V2.py
valve-friction term under Waterflooding is not n_valves * V * dP / eff_valv
/ eff_pump: IOR_V2.py divides by 1, not by the valve efficiency. -/
theorem C1_counterexample :
    V2.X_RFV .Waterflooding
        ⟨900, 1050, 1, 1, 1, 1/2, 1, 1, 0, 1, 0, 0⟩
        ⟨1000000, 0, 100, 0, none⟩ ≠
      (1 : ℚ) *
        (Qinj_m3 ⟨1000000, 0, 100, 0, none⟩ * dP_Pa ⟨1000000, 0, 100, 0, none⟩ / (1/2)) / 1 := by
  norm_num [V2.X_RFV, V2.polyFactor, valveLoop_eq, Qinj_m3, dP_Pa, bbl_to_m3, psi_to_Pa]

/-- C1 amended: the valve-friction term is n_valves identical per-valve
losses V * dP / divisor, summed and then divided once by eff_pump, where
in ior_app.py the divisor is eff_valv for Water Injection and eff_poly for
Polymer Injection, while in IOR_V2.py the divisor is 1 for Waterflooding
(that variant has no valve-efficiency parameter) and eff_poly for Polymer
Injection. -/
theorem C1_valve_divisor_amended (cfg : Config) (m : Measurement) (c : ℚ) :
    (App1.balance .Waterflooding cfg m c).X_RFV =
      (cfg.n_valves : ℚ) * (Qinj_m3 m * dP_Pa m / cfg.eff_valv) / cfg.eff_pump ∧
    (App1.balance .PolymerInjection cfg m c).X_RFV =
      (cfg.n_valves : ℚ) * (Qinj_m3 m * dP_Pa m / cfg.eff_poly) / cfg.eff_pump ∧
    (V2.balance .Waterflooding cfg m c).X_RFV =
      (cfg.n_valves : ℚ) * (Qinj_m3 m * dP_Pa m / 1) / cfg.eff_pump ∧
    (V2.balance .PolymerInjection cfg m c).X_RFV =
      (cfg.n_valves : ℚ) * (Qinj_m3 m * dP_Pa m / cfg.eff_poly) / cfg.eff_pump := by
  refine ⟨?_, ?_, ?_, ?_⟩ <;>
    simp [App1.balance, V2.balance, App1.X_RFV, V2.X_RFV, V2.polyFactor, valveLoop_eq]

/-- C3: in ior_app.py and IOR_V2.py, X_RF equals
(X_Oil_Total - sum of the five input terms) / X_Oil_Total when X_Oil_Total
is nonzero and is exactly 0 when X_Oil_Total = 0; in particular qoil = 0
forces X_Oil_Total = 0 and X_RF = 0, the division branch being guarded. -/
theorem C3_recovery_guard (tech : Technology) (cfg : Config) (m : Measurement) (c : ℚ) :
    (IOR.X_Oil_Total cfg m ≠ 0 →
      (App1.balance tech cfg m c).X_RF =
        ((App1.balance tech cfg m c).X_Oil_Total -
          ((App1.balance tech cfg m c).X_mix + (App1.balance tech cfg m c).X_W_Prod +
            (App1.balance tech cfg m c).X_Iny + (App1.balance tech cfg m c).X_RFV +
            (App1.balance tech cfg m c).X_ALS)) / (App1.balance tech cfg m c).X_Oil_Total) ∧
    (IOR.X_Oil_Total cfg m = 0 → (App1.balance tech cfg m c).X_RF = 0) ∧
    (m.qoil_B = 0 →
      (App1.balance tech cfg m c).X_Oil_Total = 0 ∧ (App1.balance tech cfg m c).X_RF = 0) ∧
    (IOR.X_Oil_Total cfg m ≠ 0 →
      (V2.balance tech cfg m c).X_RF =
        ((V2.balance tech cfg m c).X_Oil_Total -
          ((V2.balance tech cfg m c).X_mix + (V2.balance tech cfg m c).X_W_Prod +
            (V2.balance tech cfg m c).X_Iny + (V2.balance tech cfg m c).X_RFV +
            (V2.balance tech cfg m c).X_ALS)) / (V2.balance tech cfg m c).X_Oil_Total) ∧
    (IOR.X_Oil_Total cfg m = 0 → (V2.balance tech cfg m c).X_RF = 0) ∧
    (m.qoil_B = 0 →
      (V2.balance tech cfg m c).X_Oil_Total = 0 ∧ (V2.balance tech cfg m c).X_RF = 0) := by
  have hq : m.qoil_B = 0 → IOR.X_Oil_Total cfg m = 0 := by
    intro h
    simp [IOR.X_Oil_Total, qoil_m3, h]
  refine ⟨?_, ?_, ?_, ?_, ?_, ?_⟩
  · intro h
    simp [App1.balance, recoveryFactor, h]
  · intro h
    simp [App1.balance, recoveryFactor, h]
  · intro h
    exact ⟨hq h, by simp [App1.balance, recoveryFactor, hq h]⟩
  · intro h
    simp [V2.balance, recoveryFactor, h]
  · intro h
    simp [V2.balance, recoveryFactor, h]
  · intro h
    exact ⟨hq h, by simp [V2.balance, recoveryFactor, hq h]⟩

/-- C3 witness: at qoil_B = 0 the oil exergy and recovery factor are 0 in
both variants, and at qoil_B = 500 the nonzero-oil branch gives the
quotient form. -/
theorem C3_witness :
    ((App1.balance .Waterflooding ⟨900, 1050, 4/5, 9/10, 17/20, 9/10, 1500, 17/20, 5000, 5, 2/5, 1/10⟩
        ⟨1000, 0, 1500, 1/2, none⟩ 0).X_Oil_Total = 0 ∧
      (App1.balance .Waterflooding ⟨900, 1050, 4/5, 9/10, 17/20, 9/10, 1500, 17/20, 5000, 5, 2/5, 1/10⟩
        ⟨1000, 0, 1500, 1/2, none⟩ 0).X_RF = 0) ∧
    ((V2.balance .Waterflooding ⟨900, 1050, 4/5, 9/10, 17/20, 9/10, 1500, 17/20, 5000, 5, 2/5, 1/10⟩
        ⟨1000, 0, 1500, 1/2, none⟩ 0).X_Oil_Total = 0 ∧
      (V2.balance .Waterflooding ⟨900, 1050, 4/5, 9/10, 17/20, 9/10, 1500, 17/20, 5000, 5, 2/5, 1/10⟩
        ⟨1000, 0, 1500, 1/2, none⟩ 0).X_RF = 0) ∧
    (V2.balance .Waterflooding ⟨900, 1050, 4/5, 9/10, 17/20, 9/10, 1500, 17/20, 5000, 5, 2/5, 1/10⟩
        ⟨1000, 500, 1500, 1/2, none⟩ 0).X_RF =
      ((V2.balance .Waterflooding ⟨900, 1050, 4/5, 9/10, 17/20, 9/10, 1500, 17/20, 5000, 5, 2/5, 1/10⟩
          ⟨1000, 500, 1500, 1/2, none⟩ 0).X_Oil_Total -
        ((V2.balance .Waterflooding ⟨900, 1050, 4/5, 9/10, 17/20, 9/10, 1500, 17/20, 5000, 5, 2/5, 1/10⟩
            ⟨1000, 500, 1500, 1/2, none⟩ 0).X_mix +
          (V2.balance .Waterflooding ⟨900, 1050, 4/5, 9/10, 17/20, 9/10, 1500, 17/20, 5000, 5, 2/5, 1/10⟩
            ⟨1000, 500, 1500, 1/2, none⟩ 0).X_W_Prod +
          (V2.balance .Waterflooding ⟨900, 1050, 4/5, 9/10, 17/20, 9/10, 1500, 17/20, 5000, 5, 2/5, 1/10⟩
            ⟨1000, 500, 1500, 1/2, none⟩ 0).X_Iny +
          (V2.balance .Waterflooding ⟨900, 1050, 4/5, 9/10, 17/20, 9/10, 1500, 17/20, 5000, 5, 2/5, 1/10⟩
            ⟨1000, 500, 1500, 1/2, none⟩ 0).X_RFV +
          (V2.balance .Waterflooding ⟨900, 1050, 4/5, 9/10, 17/20, 9/10, 1500, 17/20, 5000, 5, 2/5, 1/10⟩
            ⟨1000, 500, 1500, 1/2, none⟩ 0).X_ALS)) /
        (V2.balance .Waterflooding ⟨900, 1050, 4/5, 9/10, 17/20, 9/10, 1500, 17/20, 5000, 5, 2/5, 1/10⟩
          ⟨1000, 500, 1500, 1/2, none⟩ 0).X_Oil_Total :=
  ⟨(C3_recovery_guard .Waterflooding _ _ 0).2.2.1 rfl,
    (C3_recovery_guard .Waterflooding _ _ 0).2.2.2.2.2 rfl,
    (C3_recovery_guard .Waterflooding _ _ 0).2.2.2.1
      (by norm_num [IOR.X_Oil_Total, qoil_m3, bbl_to_m3, X_Oil_Chem])⟩

/-- C2 counterexample: under the placeholder technology CO2Injection with
injection rate 1000 bbl and pressure 100 psi, IOR_V2.py computes nonzero
water-treatment, injection-pump and valve-friction exergies, so not all
input terms are zero. -/
theorem C2_counterexample :
    (V2.balance .CO2Injection ⟨900, 1050, 1, 1, 1, 1, 1, 1, 0, 1, 0, 0⟩
        ⟨1000, 0, 100, 0, none⟩ 0).X_W_Prod ≠ 0 ∧
    (V2.balance .CO2Injection ⟨900, 1050, 1, 1, 1, 1, 1, 1, 0, 1, 0, 0⟩
        ⟨1000, 0, 100, 0, none⟩ 0).X_Iny ≠ 0 ∧
    (V2.balance .CO2Injection ⟨900, 1050, 1, 1, 1, 1, 1, 1, 0, 1, 0, 0⟩
        ⟨1000, 0, 100, 0, none⟩ 0).X_RFV ≠ 0 := by
  refine ⟨?_, ?_, ?_⟩ <;>
    norm_num [V2.balance, V2.X_W_Prod, V2.X_Iny, V2.X_RFV, V2.polyFactor, valveLoop_eq,
      Qinj_m3, dP_Pa, bbl_to_m3, psi_to_Pa, X_trat]

/-- C2 amended: under the unimplemented placeholder technologies, the
ior_app.py balance has all four injection-side input terms equal to zero
with artificial lift and oil chemical exergy computed as usual; IOR_V2.py
and ior_app_v2.py instead zero only the mixing term and compute the
water-treatment, injection and valve terms as for Waterflooding (per-valve
divisor 1). -/
theorem C2_placeholder_amended (tech : Technology) (cfg : Config) (m : Measurement) (c : ℚ)
    (h : tech = .CO2Injection ∨ tech = .SteamInjection ∨ tech = .ASP) :
    ((App1.balance tech cfg m c).X_mix = 0 ∧
      (App1.balance tech cfg m c).X_W_Prod = 0 ∧
      (App1.balance tech cfg m c).X_Iny = 0 ∧
      (App1.balance tech cfg m c).X_RFV = 0 ∧
      (App1.balance tech cfg m c).X_ALS =
        qoil_m3 m * (1 + m.WOR) * (m.WOR * cfg.rho_W + (1 - m.WOR) * cfg.rho_O)
          * g * cfg.H / cfg.ALS ∧
      (App1.balance tech cfg m c).X_Oil_Total = X_Oil_Chem * (qoil_m3 m * cfg.rho_O)) ∧
    ((V2.balance tech cfg m c).X_mix = 0 ∧
      (V2.balance tech cfg m c).X_W_Prod = Qinj_m3 m * X_trat * 3600000 ∧
      (V2.balance tech cfg m c).X_Iny = Qinj_m3 m * dP_Pa m / (cfg.eff_pump * 1) ∧
      (V2.balance tech cfg m c).X_RFV =
        (cfg.n_valves : ℚ) * (Qinj_m3 m * dP_Pa m / 1) / cfg.eff_pump) ∧
    ((App2.balance tech cfg m c).X_mix = 0 ∧
      (App2.balance tech cfg m c).X_W_Prod = Qinj_m3 m * X_trat * 3600 * 1000 ∧
      (App2.balance tech cfg m c).X_Iny = Qinj_m3 m * dP_Pa m / (cfg.eff_pump * 1) ∧
      (App2.balance tech cfg m c).X_RFV =
        (cfg.n_valves : ℚ) * (Qinj_m3 m * dP_Pa m / 1) / cfg.eff_pump) := by
  rcases h with h | h | h <;> subst h <;>
    exact ⟨⟨rfl, rfl, rfl, rfl, rfl, rfl⟩,
      ⟨by simp [V2.balance, V2.X_mix], rfl,
        by simp [V2.balance, V2.X_Iny, V2.polyFactor],
        by simp [V2.balance, V2.X_RFV, V2.polyFactor, valveLoop_eq]⟩,
      ⟨by simp [App2.balance, App2.X_mix], rfl,
        by simp [App2.balance, App2.X_Iny, App2.effPoly],
        by simp [App2.balance, App2.X_RFV, App2.effPoly, valveLoop_eq]⟩⟩

/-- C2 witness: concrete instantiation at CO2Injection: ior_app.py zeroes
the water-treatment term while IOR_V2.py leaves the mixing term zero. -/
theorem C2_witness :
    (App1.balance .CO2Injection ⟨900, 1050, 4/5, 9/10, 17/20, 9/10, 1500, 17/20, 5000, 5, 2/5, 1/10⟩
        ⟨1000, 500, 1500, 1/2, none⟩ 0).X_W_Prod = 0 ∧
    (V2.balance .CO2Injection ⟨900, 1050, 4/5, 9/10, 17/20, 9/10, 1500, 17/20, 5000, 5, 2/5, 1/10⟩
        ⟨1000, 500, 1500, 1/2, none⟩ 0).X_mix = 0 :=
  ⟨(C2_placeholder_amended .CO2Injection _ _ 0 (Or.inl rfl)).1.2.1,
    (C2_placeholder_amended .CO2Injection _ _ 0 (Or.inl rfl)).2.1.1⟩

/-- C4 counterexample: ior_app.py computes a balance for a Polymer
Injection row whose C value is absent: the row is processed as if C were
0 (row.get("C", 0)), the mixing term is 0, and no failure occurs. -/
theorem C4_counterexample :
    App1.balanceRow .PolymerInjection
        ⟨900, 1050, 4/5, 9/10, 17/20, 9/10, 1500, 17/20, 5000, 5, 2/5, 1/10⟩
        ⟨1000, 500, 1500, 1/2, none⟩ =
      App1.balance .PolymerInjection
        ⟨900, 1050, 4/5, 9/10, 17/20, 9/10, 1500, 17/20, 5000, 5, 2/5, 1/10⟩
        ⟨1000, 500, 1500, 1/2, none⟩ 0 ∧
    (App1.balanceRow .PolymerInjection
        ⟨900, 1050, 4/5, 9/10, 17/20, 9/10, 1500, 17/20, 5000, 5, 2/5, 1/10⟩
        ⟨1000, 500, 1500, 1/2, none⟩).X_mix = 0 := by
  constructor
  · rfl
  · simp [App1.balanceRow, App1.balance, App1.X_mix]

/-- C4 amended: a measurement lacking C is silently defaulted to C = 0 by
ior_app.py (computation succeeds); IOR_V2.py fails on every such row (the
C lookup precedes the arithmetic and raises a KeyError, for every
technology), and ior_app_v2.py fails likewise when the technology is
PolymerInjection; none of the variants raises a dedicated
ValidationError. -/
theorem C4_missing_C_amended (tech : Technology) (cfg : Config) (m : Measurement)
    (h : m.C = none) :
    App1.balanceRow tech cfg m = App1.balance tech cfg m 0 ∧
    V2.balanceRow tech cfg m = none ∧
    (tech = .PolymerInjection → App2.balanceRow tech cfg m = none) := by
  refine ⟨?_, ?_, ?_⟩
  · simp [App1.balanceRow, h]
  · simp [V2.balanceRow, h]
  · intro ht
    simp [App2.balanceRow, ht, h]

/-- C4 witness: concrete row without C: IOR_V2.py yields no result and
ior_app_v2.py yields no result under Polymer Injection. -/
theorem C4_witness :
    V2.balanceRow .Waterflooding
        ⟨900, 1050, 4/5, 9/10, 17/20, 9/10, 1500, 17/20, 5000, 5, 2/5, 1/10⟩
        ⟨1000, 500, 1500, 1/2, none⟩ = none ∧
    App2.balanceRow .PolymerInjection
        ⟨900, 1050, 4/5, 9/10, 17/20, 9/10, 1500, 17/20, 5000, 5, 2/5, 1/10⟩
        ⟨1000, 500, 1500, 1/2, none⟩ = none :=
  ⟨(C4_missing_C_amended .Waterflooding _ _ rfl).2.1,
    (C4_missing_C_amended .PolymerInjection _ _ rfl).2.2 rfl⟩

/-- Equal quotients of the same nonzero numerator have equal denominators. -/
theorem div_same_num (a e1 e2 : ℚ) (ha : a ≠ 0) (h1 : e1 ≠ 0) (h2 : e2 ≠ 0)
    (h : a / e1 = a / e2) : e1 = e2 := by
  rw [div_eq_div_iff h1 h2] at h
  exact (mul_left_cancel₀ ha h).symm

/-- Dividing a nonzero numerator by b * e and by b agree only when e = 1. -/
theorem div_mul_denom_eq (a b e : ℚ) (ha : a ≠ 0) (hb : b ≠ 0) (he : e ≠ 0)
    (h : a / (b * e) = a / b) : e = 1 := by
  have h2 := div_same_num a (b * e) b ha (mul_ne_zero hb he) hb h
  have h3 : b * e = b * 1 := by rw [mul_one]; exact h2
  exact mul_left_cancel₀ hb h3

/-- C7 counterexample: the only-if direction of the efficiency-isolation
claim fails.  With zero injection rate every IOR_V2.py pressure term is 0
under both technologies although eff_poly = 1/2; and in ior_app.py with
eff_poly = eff_valv = 1/2 and nonzero flow the Polymer and Water valve
terms coincide although eff_poly = 1/2 as well. -/
theorem C7_counterexample :
    ((V2.balance .PolymerInjection ⟨900, 1050, 1, 1/2, 1, 1, 1, 1, 0, 1, 0, 0⟩
        ⟨0, 0, 100, 0, some 0⟩ 0).X_mix = 0 ∧
      (V2.balance .PolymerInjection ⟨900, 1050, 1, 1/2, 1, 1, 1, 1, 0, 1, 0, 0⟩
          ⟨0, 0, 100, 0, some 0⟩ 0).X_Iny =
        (V2.balance .Waterflooding ⟨900, 1050, 1, 1/2, 1, 1, 1, 1, 0, 1, 0, 0⟩
          ⟨0, 0, 100, 0, some 0⟩ 0).X_Iny ∧
      (V2.balance .PolymerInjection ⟨900, 1050, 1, 1/2, 1, 1, 1, 1, 0, 1, 0, 0⟩
          ⟨0, 0, 100, 0, some 0⟩ 0).X_RFV =
        (V2.balance .Waterflooding ⟨900, 1050, 1, 1/2, 1, 1, 1, 1, 0, 1, 0, 0⟩
          ⟨0, 0, 100, 0, some 0⟩ 0).X_RFV ∧
      (⟨900, 1050, 1, 1/2, 1, 1, 1, 1, 0, 1, 0, 0⟩ : Config).eff_poly ≠ 1) ∧
    ((App1.balance .PolymerInjection ⟨900, 1050, 1, 1/2, 1, 1/2, 1, 1, 0, 1, 0, 0⟩
        ⟨1000, 0, 100, 0, some 0⟩ 0).X_mix = 0 ∧
      (App1.balance .PolymerInjection ⟨900, 1050, 1, 1/2, 1, 1/2, 1, 1, 0, 1, 0, 0⟩
          ⟨1000, 0, 100, 0, some 0⟩ 0).X_RFV =
        (App1.balance .Waterflooding ⟨900, 1050, 1, 1/2, 1, 1/2, 1, 1, 0, 1, 0, 0⟩
          ⟨1000, 0, 100, 0, some 0⟩ 0).X_RFV ∧
      (⟨900, 1050, 1, 1/2, 1, 1/2, 1, 1, 0, 1, 0, 0⟩ : Config).eff_poly ≠ 1) := by
  refine ⟨⟨?_, ?_, ?_, ?_⟩, ⟨?_, ?_, ?_⟩⟩ <;>
    norm_num [V2.balance, V2.X_mix, V2.X_Iny, V2.X_RFV, V2.polyFactor,
      App1.balance, App1.X_mix, App1.X_RFV, valveLoop_eq, Qinj_m3, dP_Pa,
      bbl_to_m3, psi_to_Pa]

/-- C7 amended: with C = 0 under PolymerInjection the mixing exergy is 0
in every variant.  For the pressure terms, eff_poly = 1 makes the
Polymer values of IOR_V2.py equal the Waterflooding ones (and the
ior_app.py pump term as well); conversely, when the flow term and the
efficiencies are nonzero, equality of the IOR_V2.py pump or valve term
forces eff_poly = 1, while equality of the ior_app.py valve term forces
eff_poly = eff_valv instead. -/
theorem C7_eta_poly_isolation_amended (cfg : Config) (m : Measurement) :
    (App1.balance .PolymerInjection cfg m 0).X_mix = 0 ∧
    (V2.balance .PolymerInjection cfg m 0).X_mix = 0 ∧
    (App2.balance .PolymerInjection cfg m 0).X_mix = 0 ∧
    (cfg.eff_poly = 1 →
      (V2.balance .PolymerInjection cfg m 0).X_Iny =
          (V2.balance .Waterflooding cfg m 0).X_Iny ∧
        (V2.balance .PolymerInjection cfg m 0).X_RFV =
          (V2.balance .Waterflooding cfg m 0).X_RFV ∧
        (App1.balance .PolymerInjection cfg m 0).X_Iny =
          (App1.balance .Waterflooding cfg m 0).X_Iny) ∧
    (Qinj_m3 m * dP_Pa m ≠ 0 → cfg.eff_pump ≠ 0 → cfg.eff_poly ≠ 0 →
      (V2.balance .PolymerInjection cfg m 0).X_Iny =
          (V2.balance .Waterflooding cfg m 0).X_Iny →
        cfg.eff_poly = 1) ∧
    (Qinj_m3 m * dP_Pa m ≠ 0 → cfg.eff_pump ≠ 0 → cfg.eff_poly ≠ 0 → 1 ≤ cfg.n_valves →
      (V2.balance .PolymerInjection cfg m 0).X_RFV =
          (V2.balance .Waterflooding cfg m 0).X_RFV →
        cfg.eff_poly = 1) ∧
    (Qinj_m3 m * dP_Pa m ≠ 0 → cfg.eff_pump ≠ 0 → cfg.eff_poly ≠ 0 → cfg.eff_valv ≠ 0 →
        1 ≤ cfg.n_valves →
      (App1.balance .PolymerInjection cfg m 0).X_RFV =
          (App1.balance .Waterflooding cfg m 0).X_RFV →
        cfg.eff_poly = cfg.eff_valv) := by
  refine ⟨?_, ?_, ?_, ?_, ?_, ?_, ?_⟩
  · simp [App1.balance, App1.X_mix]
  · simp [V2.balance, V2.X_mix]
  · simp [App2.balance, App2.X_mix]
  · intro h
    refine ⟨?_, ?_, ?_⟩ <;>
      simp [V2.balance, V2.X_Iny, V2.X_RFV, V2.polyFactor,
        App1.balance, App1.X_Iny, h]
  · intro hV hep hpoly heq
    simp [V2.balance, V2.X_Iny, V2.polyFactor] at heq
    exact div_mul_denom_eq (Qinj_m3 m * dP_Pa m) cfg.eff_pump cfg.eff_poly hV hep hpoly
      (by rw [heq])
  · intro hV hep hpoly hn heq
    have hn0 : 0 < cfg.n_valves := hn
    have hn' : ((cfg.n_valves : ℚ)) ≠ 0 := by
      have : (0:ℚ) < (cfg.n_valves : ℚ) := by exact_mod_cast hn0
      exact this.ne'
    simp [V2.balance, V2.X_RFV, V2.polyFactor, valveLoop_eq] at heq
    have h2 := congrArg (fun x => x * cfg.eff_pump) heq
    simp only [div_mul_cancel₀ _ hep] at h2
    have h3 := mul_left_cancel₀ hn' h2
    have h4 : Qinj_m3 m * dP_Pa m / cfg.eff_poly = Qinj_m3 m * dP_Pa m / 1 := by
      rw [div_one]; exact h3
    have h5 := div_same_num (Qinj_m3 m * dP_Pa m) cfg.eff_poly 1 hV hpoly one_ne_zero h4
    exact h5
  · intro hV hep hpoly hvalv hn heq
    have hn0 : 0 < cfg.n_valves := hn
    have hn' : ((cfg.n_valves : ℚ)) ≠ 0 := by
      have : (0:ℚ) < (cfg.n_valves : ℚ) := by exact_mod_cast hn0
      exact this.ne'
    simp [App1.balance, App1.X_RFV, valveLoop_eq] at heq
    have h2 := congrArg (fun x => x * cfg.eff_pump) heq
    simp only [div_mul_cancel₀ _ hep] at h2
    have h3 := mul_left_cancel₀ hn' h2
    exact div_same_num (Qinj_m3 m * dP_Pa m) cfg.eff_poly cfg.eff_valv hV hpoly hvalv h3

/-- C7 witness: with eff_poly = 1 the IOR_V2.py Polymer pump term equals
the Waterflooding one, and the only-if direction applied at the same
nondegenerate input returns eff_poly = 1. -/
theorem C7_witness :
    (V2.balance .PolymerInjection ⟨900, 1050, 4/5, 1, 17/20, 9/10, 1500, 17/20, 5000, 5, 2/5, 1/10⟩
        ⟨1000, 500, 1500, 1/2, some 0⟩ 0).X_Iny =
      (V2.balance .Waterflooding ⟨900, 1050, 4/5, 1, 17/20, 9/10, 1500, 17/20, 5000, 5, 2/5, 1/10⟩
        ⟨1000, 500, 1500, 1/2, some 0⟩ 0).X_Iny ∧
    (⟨900, 1050, 4/5, 1, 17/20, 9/10, 1500, 17/20, 5000, 5, 2/5, 1/10⟩ : Config).eff_poly = 1 := by
  have h := C7_eta_poly_isolation_amended
    ⟨900, 1050, 4/5, 1, 17/20, 9/10, 1500, 17/20, 5000, 5, 2/5, 1/10⟩
    ⟨1000, 500, 1500, 1/2, some 0⟩
  have heq := (h.2.2.2.1 rfl).1
  refine ⟨heq, ?_⟩
  exact h.2.2.2.2.1
    (by norm_num [Qinj_m3, dP_Pa, bbl_to_m3, psi_to_Pa]) (by norm_num) (by norm_num) heq

/-- Strict monotonicity of a scaled pressure quotient in the pressure. -/
theorem scaled_mono (V k D p q : ℚ) (hV : 0 < V) (hk : 0 < k) (hD : 0 < D)
    (h : p < q) : V * (p * k) / D < V * (q * k) / D := by
  have h1 : V * (p * k) < V * (q * k) :=
    mul_lt_mul_of_pos_left (mul_lt_mul_of_pos_right h hk) hV
  rw [div_eq_mul_inv, div_eq_mul_inv]
  exact mul_lt_mul_of_pos_right h1 (inv_pos.mpr hD)

/-- C8 counterexample: with zero injection rate (a valid measurement) the
pump and valve terms are 0 at any pressure, so raising WHP_psi from 0 to 1
does not strictly increase them. -/
theorem C8_counterexample :
    ¬((V2.balance .Waterflooding ⟨900, 1050, 4/5, 9/10, 17/20, 9/10, 1500, 17/20, 5000, 5, 2/5, 1/10⟩
          ⟨0, 0, 0, 0, none⟩ 0).X_Iny <
        (V2.balance .Waterflooding ⟨900, 1050, 4/5, 9/10, 17/20, 9/10, 1500, 17/20, 5000, 5, 2/5, 1/10⟩
          ⟨0, 0, 1, 0, none⟩ 0).X_Iny) ∧
    ¬((V2.balance .Waterflooding ⟨900, 1050, 4/5, 9/10, 17/20, 9/10, 1500, 17/20, 5000, 5, 2/5, 1/10⟩
          ⟨0, 0, 0, 0, none⟩ 0).X_RFV <
        (V2.balance .Waterflooding ⟨900, 1050, 4/5, 9/10, 17/20, 9/10, 1500, 17/20, 5000, 5, 2/5, 1/10⟩
          ⟨0, 0, 1, 0, none⟩ 0).X_RFV) := by
  constructor <;>
    norm_num [V2.balance, V2.X_Iny, V2.X_RFV, V2.polyFactor, valveLoop_eq,
      Qinj_m3, dP_Pa, bbl_to_m3, psi_to_Pa]

/-- C8 amended: for the implemented technologies, with a strictly positive
injection rate, positive efficiencies and at least one valve, increasing
WHP_psi (all other inputs fixed) strictly increases the pump term X_Iny
and the valve term X_RFV of both ior_app.py and IOR_V2.py. -/
theorem C8_monotone_amended (tech : Technology) (cfg : Config)
    (Q qo w p p' : ℚ) (co : Option ℚ) (c : ℚ)
    (htech : tech = .Waterflooding ∨ tech = .PolymerInjection)
    (hQ : 0 < Q) (hep : 0 < cfg.eff_pump) (hpoly : 0 < cfg.eff_poly)
    (hvalv : 0 < cfg.eff_valv) (hn : 1 ≤ cfg.n_valves) (hp : p < p') :
    (V2.balance tech cfg ⟨Q, qo, p, w, co⟩ c).X_Iny <
        (V2.balance tech cfg ⟨Q, qo, p', w, co⟩ c).X_Iny ∧
    (V2.balance tech cfg ⟨Q, qo, p, w, co⟩ c).X_RFV <
        (V2.balance tech cfg ⟨Q, qo, p', w, co⟩ c).X_RFV ∧
    (App1.balance tech cfg ⟨Q, qo, p, w, co⟩ c).X_Iny <
        (App1.balance tech cfg ⟨Q, qo, p', w, co⟩ c).X_Iny ∧
    (App1.balance tech cfg ⟨Q, qo, p, w, co⟩ c).X_RFV <
        (App1.balance tech cfg ⟨Q, qo, p', w, co⟩ c).X_RFV := by
  have hbbl : (0:ℚ) < bbl_to_m3 := by norm_num [bbl_to_m3]
  have hpsi : (0:ℚ) < psi_to_Pa := by norm_num [psi_to_Pa]
  have hV : 0 < Q * bbl_to_m3 := mul_pos hQ hbbl
  have hn0 : 0 < cfg.n_valves := hn
  have hn' : (0:ℚ) < (cfg.n_valves : ℚ) := by exact_mod_cast hn0
  rcases htech with h | h <;> subst h <;> refine ⟨?_, ?_, ?_, ?_⟩ <;>
    simp only [V2.balance, App1.balance, V2.X_Iny, V2.X_RFV, V2.polyFactor,
      App1.X_Iny, App1.X_RFV, valveLoop_eq, Qinj_m3, dP_Pa] <;>
    norm_num <;>
    gcongr

/-- C8 witness: concrete strictly increasing instance at WHP 1500 versus
1600 psi under Waterflooding. -/
theorem C8_witness :
    (V2.balance .Waterflooding ⟨900, 1050, 4/5, 9/10, 17/20, 9/10, 1500, 17/20, 5000, 5, 2/5, 1/10⟩
        ⟨1000, 500, 1500, 1/2, none⟩ 0).X_Iny <
      (V2.balance .Waterflooding ⟨900, 1050, 4/5, 9/10, 17/20, 9/10, 1500, 17/20, 5000, 5, 2/5, 1/10⟩
        ⟨1000, 500, 1600, 1/2, none⟩ 0).X_Iny ∧
    (App1.balance .Waterflooding ⟨900, 1050, 4/5, 9/10, 17/20, 9/10, 1500, 17/20, 5000, 5, 2/5, 1/10⟩
        ⟨1000, 500, 1500, 1/2, none⟩ 0).X_RFV <
      (App1.balance .Waterflooding ⟨900, 1050, 4/5, 9/10, 17/20, 9/10, 1500, 17/20, 5000, 5, 2/5, 1/10⟩
        ⟨1000, 500, 1600, 1/2, none⟩ 0).X_RFV := by
  have h := C8_monotone_amended .Waterflooding
    ⟨900, 1050, 4/5, 9/10, 17/20, 9/10, 1500, 17/20, 5000, 5, 2/5, 1/10⟩
    1000 500 (1/2) 1500 1600 none 0 (Or.inl rfl)
    (by norm_num) (by norm_num) (by norm_num) (by norm_num) (by norm_num) (by norm_num)
  exact ⟨h.1, h.2.2.2⟩

/-- The guarded recovery factor is at most 1 whenever the oil exergy and
the total input exergy are nonnegative. -/
theorem recoveryFactor_le_one (oil total : ℚ) (h1 : 0 ≤ oil) (h2 : 0 ≤ total) :
    recoveryFactor oil total ≤ 1 := by
  by_cases h : oil ≠ 0
  · have hoil : 0 < oil := lt_of_le_of_ne h1 (Ne.symm h)
    simp only [recoveryFactor, if_pos h]
    rw [div_le_one hoil]
    linarith
  · simp [recoveryFactor, h]

/-- The polymer mixing formula is nonnegative for nonnegative volume,
concentration and shipping distance and positive preparation
efficiency. -/
theorem mixCore_nonneg (cfg : Config) (m : Measurement) (c : ℚ)
    (hV : 0 ≤ Qinj_m3 m) (hc : 0 ≤ c) (hd : 0 ≤ cfg.d_shipping)
    (hpui : 0 < cfg.eff_pui) :
    0 ≤ Qinj_m3 m * c * (X_man + X_shipping * cfg.d_shipping) / cfg.eff_pui := by
  have hship : (0:ℚ) ≤ X_shipping * cfg.d_shipping :=
    mul_nonneg (by norm_num [X_shipping]) hd
  have hman : (0:ℚ) ≤ X_man := by norm_num [X_man]
  exact div_nonneg (mul_nonneg (mul_nonneg hV hc) (add_nonneg hman hship)) hpui.le

/-- C10 counterexample: with a negative polymer shipping distance (a
configuration the claim does not exclude: densities, efficiencies, lift
height and valve count are all positive) the mixing term is negative. -/
theorem C10_counterexample :
    (V2.balance .PolymerInjection ⟨900, 1050, 1, 1, 1, 1, 1, 1, -1000000, 1, 0, 0⟩
        ⟨1000000, 0, 0, 0, some 1⟩ 1).X_mix < 0 := by
  norm_num [V2.balance, V2.X_mix, Qinj_m3, bbl_to_m3, X_man, X_shipping]

/-- C10 amended: adding the hypothesis that the shipping distance is
nonnegative, every one of the five input exergy terms of ior_app.py and
IOR_V2.py is nonnegative for every technology, for nonnegative
measurement fields with WOR in the unit interval and positive densities,
efficiencies, lift height and valve count; consequently X_RF is at most
1 in both variants. -/
theorem C10_nonneg_amended (tech : Technology) (cfg : Config) (m : Measurement) (c : ℚ)
    (hQ : 0 ≤ m.Qinj_B) (hq : 0 ≤ m.qoil_B) (hW : 0 ≤ m.WHP_psi) (hc : 0 ≤ c)
    (hw0 : 0 ≤ m.WOR) (hw1 : m.WOR ≤ 1)
    (hrO : 0 < cfg.rho_O) (hrW : 0 < cfg.rho_W)
    (hep : 0 < cfg.eff_pump) (hpoly : 0 < cfg.eff_poly) (hpui : 0 < cfg.eff_pui)
    (hvalv : 0 < cfg.eff_valv) (hALS : 0 < cfg.ALS) (hH : 0 < cfg.H)
    (_hn : 1 ≤ cfg.n_valves) (hd : 0 ≤ cfg.d_shipping) :
    (0 ≤ (App1.balance tech cfg m c).X_mix ∧
      0 ≤ (App1.balance tech cfg m c).X_W_Prod ∧
      0 ≤ (App1.balance tech cfg m c).X_Iny ∧
      0 ≤ (App1.balance tech cfg m c).X_RFV ∧
      0 ≤ (App1.balance tech cfg m c).X_ALS ∧
      (App1.balance tech cfg m c).X_RF ≤ 1) ∧
    (0 ≤ (V2.balance tech cfg m c).X_mix ∧
      0 ≤ (V2.balance tech cfg m c).X_W_Prod ∧
      0 ≤ (V2.balance tech cfg m c).X_Iny ∧
      0 ≤ (V2.balance tech cfg m c).X_RFV ∧
      0 ≤ (V2.balance tech cfg m c).X_ALS ∧
      (V2.balance tech cfg m c).X_RF ≤ 1) := by
  have hbbl : (0:ℚ) < bbl_to_m3 := by norm_num [bbl_to_m3]
  have hpsi : (0:ℚ) < psi_to_Pa := by norm_num [psi_to_Pa]
  have hV : 0 ≤ Qinj_m3 m := mul_nonneg hQ hbbl.le
  have hP : 0 ≤ dP_Pa m := mul_nonneg hW hpsi.le
  have hqm : 0 ≤ qoil_m3 m := mul_nonneg hq hbbl.le
  have hnc : (0:ℚ) ≤ (cfg.n_valves : ℚ) := Nat.cast_nonneg _
  have hliq : 0 ≤ V_liq m := mul_nonneg hqm (by linarith)
  have hmixrho : 0 ≤ rho_mix cfg m :=
    add_nonneg (mul_nonneg hw0 hrW.le) (mul_nonneg (by linarith) hrO.le)
  have hals : 0 ≤ IOR.X_ALS cfg m := by
    refine div_nonneg ?_ hALS.le
    refine mul_nonneg (mul_nonneg (mul_nonneg hliq hmixrho) ?_) hH.le
    norm_num [g]
  have hoil : 0 ≤ IOR.X_Oil_Total cfg m := by
    refine mul_nonneg ?_ (mul_nonneg hqm hrO.le)
    norm_num [X_Oil_Chem]
  have hA1mix : 0 ≤ App1.X_mix tech cfg m c := by
    cases tech <;> simp only [App1.X_mix] <;>
      first
        | exact le_refl 0
        | exact mixCore_nonneg cfg m c hV hc hd hpui
  have hA1w : 0 ≤ App1.X_W_Prod tech m := by
    cases tech <;> simp only [App1.X_W_Prod] <;>
      first
        | exact le_refl 0
        | exact mul_nonneg (mul_nonneg (mul_nonneg hV (by norm_num [X_trat])) (by norm_num))
            (by norm_num)
  have hA1iny : 0 ≤ App1.X_Iny tech cfg m := by
    cases tech <;> simp only [App1.X_Iny] <;>
      first
        | exact le_refl 0
        | exact div_nonneg (mul_nonneg hV hP) hep.le
        | exact div_nonneg (mul_nonneg hV hP) (mul_pos hep hpoly).le
  have hA1rfv : 0 ≤ App1.X_RFV tech cfg m := by
    cases tech <;> simp only [App1.X_RFV, valveLoop_eq] <;>
      first
        | exact le_refl 0
        | exact div_nonneg
            (mul_nonneg hnc (div_nonneg (mul_nonneg hV hP) hvalv.le)) hep.le
        | exact div_nonneg
            (mul_nonneg hnc (div_nonneg (mul_nonneg hV hP) hpoly.le)) hep.le
  have hV2mix : 0 ≤ V2.X_mix tech cfg m c := by
    rcases eq_or_ne tech .PolymerInjection with h | h <;> simp only [V2.X_mix, h, if_pos, if_neg,
      reduceIte]
    · exact mixCore_nonneg cfg m c hV hc hd hpui
    · simp [h]
  have hV2w : 0 ≤ V2.X_W_Prod m := by
    simp only [V2.X_W_Prod]
    exact mul_nonneg (mul_nonneg hV (by norm_num [X_trat])) (by norm_num)
  have hpf : 0 < V2.polyFactor tech cfg := by
    simp only [V2.polyFactor]
    split
    · exact hpoly
    · norm_num
  have hV2iny : 0 ≤ V2.X_Iny tech cfg m :=
    div_nonneg (mul_nonneg hV hP) (mul_pos hep hpf).le
  have hV2rfv : 0 ≤ V2.X_RFV tech cfg m := by
    simp only [V2.X_RFV, valveLoop_eq]
    exact div_nonneg (mul_nonneg hnc (div_nonneg (mul_nonneg hV hP) hpf.le)) hep.le
  refine ⟨⟨hA1mix, hA1w, hA1iny, hA1rfv, hals, ?_⟩,
    ⟨hV2mix, hV2w, hV2iny, hV2rfv, hals, ?_⟩⟩
  · exact recoveryFactor_le_one _ _ hoil
      (by positivity)
  · exact recoveryFactor_le_one _ _ hoil
      (by positivity)

/-- C10 witness: under the default configuration (shipping distance 5000)
and a typical polymer row all the listed terms are nonnegative and X_RF
is at most 1. -/
theorem C10_witness :
    0 ≤ (V2.balance .PolymerInjection
        ⟨900, 1050, 4/5, 9/10, 17/20, 9/10, 1500, 17/20, 5000, 5, 2/5, 1/10⟩
        ⟨1000, 500, 1500, 1/2, some (1/20)⟩ (1/20)).X_mix ∧
    (V2.balance .PolymerInjection
        ⟨900, 1050, 4/5, 9/10, 17/20, 9/10, 1500, 17/20, 5000, 5, 2/5, 1/10⟩
        ⟨1000, 500, 1500, 1/2, some (1/20)⟩ (1/20)).X_RF ≤ 1 ∧
    (App1.balance .PolymerInjection
        ⟨900, 1050, 4/5, 9/10, 17/20, 9/10, 1500, 17/20, 5000, 5, 2/5, 1/10⟩
        ⟨1000, 500, 1500, 1/2, some (1/20)⟩ (1/20)).X_RF ≤ 1 := by
  have h := C10_nonneg_amended .PolymerInjection
    ⟨900, 1050, 4/5, 9/10, 17/20, 9/10, 1500, 17/20, 5000, 5, 2/5, 1/10⟩
    ⟨1000, 500, 1500, 1/2, some (1/20)⟩ (1/20)
    (by norm_num) (by norm_num) (by norm_num) (by norm_num) (by norm_num) (by norm_num)
    (by norm_num) (by norm_num) (by norm_num) (by norm_num) (by norm_num) (by norm_num)
    (by norm_num) (by norm_num) (by norm_num) (by norm_num)
  exact ⟨h.2.1, h.2.2.2.2.2.2, h.1.2.2.2.2.2⟩

end IOR
